import Mathlib

set_option autoImplicit false

/-!
Verification of the clipp clipboard crate (src/src/lib.rs, src/src/providers.rs).

Text travelling through pipes is modelled at the byte level (`Txt := List Nat`),
since the source manipulates Rust `String`s by byte index (`truncate(len - 1)`,
`truncate(len - 2)`).  Child-process effects are modelled explicitly where a
claim talks about them; the behaviour of the external tools themselves
(wl-copy, qdbus, powershell.exe, ...) is a collaborator and is modelled from
the spec where a claim needs it.
-/

/-- Bytes of a UTF-8 Rust `String`. -/
abbrev Txt := List Nat

/-- True for a UTF-8 continuation byte (0x80..0xBF). -/
def contByte (b : Nat) : Bool := 128 ≤ b && b < 192

/-- Whether byte index `i` is a char boundary of `s` (start, end, or a byte
that is not a continuation byte), as required by Rust `String::truncate`. -/
def charBoundary (s : Txt) (i : Nat) : Bool :=
  i == s.length ||
    (match s.drop i with
     | [] => true
     | b :: _ => !contByte b)

/-- Rust `String::truncate s i`: shortens `s` to its first `i` bytes;
panics (`none`) when `i` is not a char boundary.  When `i` exceeds the
length it leaves the string unchanged, which `take` also does. -/
def truncAt (s : Txt) (i : Nat) : Option Txt :=
  if charBoundary s i then some (s.take i) else none

/-- Rust `str::ends_with(c)` for a one-byte char `b`. -/
def endsWithByte (s : Txt) (b : Nat) : Bool := s.getLast? == some b

/-- Boolean: `pre` is an initial segment of the second list. -/
def leadsWith : List Char → List Char → Bool
  | [], _ => true
  | _ :: _, [] => false
  | a :: as, b :: bs => a == b && leadsWith as bs

/-- Boolean substring containment on char lists (Rust `str::contains`). -/
def containsSeq (needle : List Char) : List Char → Bool
  | [] => needle.isEmpty
  | b :: bs => leadsWith needle (b :: bs) || containsSeq needle bs

/-- Environment of the POSIX (non-Windows, non-macOS) branch of `provide`:
whether `DISPLAY` / `WAYLAND_DISPLAY` are set, which executables `which`
finds on the search path, and the contents of `/proc/version` (`none`
models a read failure). -/
structure Env where
  display : Bool
  waylandDisplay : Bool
  path : List String
  procVersion : Option String

/-- Modelled from the spec: `executableOnPath` — `has` in the source spawns
`which c` and reports its success; we model success as membership of `c`
in the environment's search path. (src/src/providers.rs:162-170) -/
def hasExe (e : Env) (c : String) : Bool := e.path.contains c

/-- `wsl()` from src/src/providers.rs:172-179: read `/proc/version`; true
iff the read succeeds and the lower-cased contents contain "microsoft";
a read failure yields false, not an error. -/
def wslDetected (e : Env) : Bool :=
  match e.procVersion with
  | some s => containsSeq "microsoft".data s.toLower.data
  | none => false

/-- The backend variants selectable on the POSIX branch of `provide`. -/
inductive Backend where
  | wslBridge
  | wayland
  | xsel
  | xclip
  | klipper
  deriving DecidableEq

/-- The X11/Wayland/klipper selection chain of `provide`
(src/src/providers.rs:191-201), reached after the `DISPLAY` assert;
`none` models the final `panic!("no clipboard available")`. -/
def provideAfterDisplay (e : Env) : Option Backend :=
  if e.waylandDisplay && hasExe e "wl-copy" then some .wayland
  else if hasExe e "xsel" then some .xsel
  else if hasExe e "xclip" then some .xclip
  else if hasExe e "klipper" && hasExe e "qdbus" then some .klipper
  else none

/-- `provide` (src/src/providers.rs:181-202), POSIX branch: WSL check first,
then `assert!(env::var("DISPLAY").is_ok(), "no clipboard available")`
(abort modelled as `none`), then the selection chain. -/
def provide (e : Env) : Option Backend :=
  if wslDetected e then some .wslBridge
  else if e.display then provideAfterDisplay e
  else none

/-- One probe step: evaluate `has c` and record that a `which c` child
process was spawned. -/
def chk (e : Env) (c : String) (log : List String) : Bool × List String :=
  (hasExe e c, log ++ [c])

/-- `provide` instrumented with the list of `which` spawns it performs, in
order, following the short-circuit evaluation of the source's `&&` and
`else if` chain (src/src/providers.rs:181-202).  Reading `/proc/version`
and the env-var lookups spawn no process. -/
def provideTraced (e : Env) : List String × Option Backend :=
  if wslDetected e then ([], some .wslBridge)
  else if !e.display then ([], none)
  else
    let p1 := if e.waylandDisplay then chk e "wl-copy" [] else (false, [])
    if p1.1 then (p1.2, some .wayland)
    else
      let p2 := chk e "xsel" p1.2
      if p2.1 then (p2.2, some .xsel)
      else
        let p3 := chk e "xclip" p2.2
        if p3.1 then (p3.2, some .xclip)
        else
          let p4 := chk e "klipper" p3.2
          let p5 := if p4.1 then chk e "qdbus" p4.2 else (false, p4.2)
          if p4.1 && p5.1 then (p5.2, some .klipper) else (p5.2, none)

theorem provideTraced_provide (e : Env) : (provideTraced e).2 = provide e := by
  by_cases hw : wslDetected e = true <;>
  by_cases hd : e.display = true <;>
  by_cases h1 : e.waylandDisplay = true <;>
  by_cases h2 : hasExe e "wl-copy" = true <;>
  by_cases h3 : hasExe e "xsel" = true <;>
  by_cases h4 : hasExe e "xclip" = true <;>
  by_cases h5 : hasExe e "klipper" = true <;>
  by_cases h6 : hasExe e "qdbus" = true <;>
  simp_all [provideTraced, provide, provideAfterDisplay, chk]

theorem provideTraced_log_ne (e : Env) (hw : wslDetected e = false)
    (hd : e.display = true) : (provideTraced e).1 ≠ [] := by
  by_cases h1 : e.waylandDisplay = true <;>
  by_cases h2 : hasExe e "wl-copy" = true <;>
  by_cases h3 : hasExe e "xsel" = true <;>
  by_cases h4 : hasExe e "xclip" = true <;>
  by_cases h5 : hasExe e "klipper" = true <;>
  by_cases h6 : hasExe e "qdbus" = true <;>
  simp_all [provideTraced, chk]

/-- Outcome of `Wayland::copy` (src/src/providers.rs:100-108): on the empty
string it runs `wl-copy -p --clear` via `.status()` and asserts success;
on nonempty text it pipes the bytes to `wl-copy -p`. -/
inductive WaylandAct where
  | cleared
  | piped (data : Txt)
  deriving DecidableEq

/-- `Wayland::copy text`, given the exit success `clearOk` the clear
invocation would report; `none` models the `assert!` panic "wl-copy fail". -/
def Wayland.copyAct (text : Txt) (clearOk : Bool) : Option WaylandAct :=
  match text with
  | [] => if clearOk then some .cleared else none
  | s => some (.piped s)

/-- `Klipper::paste` after the qdbus output has been read
(src/src/providers.rs:121-126): assert the raw output ends with a newline
byte, then truncate that byte away; `none` models the assert panic. -/
def Klipper.pasteRaw (s : Txt) : Option Txt :=
  if endsWithByte s 10 then truncAt s (s.length - 1) else none

/-- Child processes spawned by `Klipper::copy` (src/src/providers.rs:117-119):
the statement `c!("qdbus" ...).arg(text);` only constructs a
`std::process::Command` builder and appends `text` as an argument; no
`.spawn()`, `.status()` or `.output()` is ever called and the builder is
dropped at the end of the statement, so no process runs at all. -/
def Klipper.copyEffects (_text : Txt) : List (String × List String) := []

/-- The command value `Klipper::copy` builds and then drops: program, fixed
arguments, and the text appended with `.arg` (src/src/providers.rs:118). -/
def Klipper.copyBuilt (text : Txt) : String × List String × Txt :=
  ("qdbus", ["org.kde.klipper", "/klipper", "setClipboardContents"], text)

/-- Effect of `Klipper::copy` on the external clipboard state: since no
process is spawned (see `Klipper.copyEffects`), the clipboard keeps its
prior contents. -/
def Klipper.copyClip (_text : Txt) (clip : Txt) : Option Txt := some clip

/-- Modelled from the spec: the qdbus `getClipboardContents` call emits the
clipboard contents followed by a single newline ("paste's raw output is
required to end with a single newline"). -/
def qdbusPasteOutput (clip : Txt) : Txt := clip ++ [10]

/-- `Klipper::paste` as a function of the external clipboard state: read the
qdbus output, then post-process it as the source does. -/
def Klipper.pasteClip (clip : Txt) : Option Txt :=
  Klipper.pasteRaw (qdbusPasteOutput clip)

/-- `Wsl::paste` after the powershell output has been read
(src/src/providers.rs:149-153): `s.truncate(s.len() - 2)` with no check of
what the last two bytes are.  Under Rust's checked arithmetic (the profile
the crate's own test runs in) `s.len() - 2` panics for outputs shorter
than two bytes; `none` models that abort and the char-boundary panic of
`truncate`. -/
def Wsl.pasteRaw (s : Txt) : Option Txt :=
  if s.length < 2 then none else truncAt s (s.length - 2)

/-- Per-process binding cache: `static CLIP: OnceLock<Board>`
(src/src/lib.rs:13). -/
structure ProcState where
  cache : Option Backend
  deriving DecidableEq

/-- One `CLIP.get_or_init(providers::provide)` call (src/src/lib.rs:17,22),
with `OnceLock::get_or_init` modelled by its documented contract: return
the cached value if set, otherwise run `provide` once and store its
result.  Returns the backend obtained, the new cache state, and whether
resolution ran on this call; `none` models the resolution panic. -/
def getOrInit (e : Env) (st : ProcState) : Option (Backend × ProcState × Bool) :=
  match st.cache with
  | some b => some (b, st, false)
  | none =>
    match provide e with
    | some b => some (b, { cache := some b }, true)
    | none => none

/-- Run `n` successive `copy`/`paste` dispatches through the cache,
collecting the backends each call used and counting how many of the calls
performed a resolution. -/
def runCalls (e : Env) : Nat → ProcState → Option (ProcState × List Backend × Nat)
  | 0, st => some (st, [], 0)
  | n + 1, st =>
    match getOrInit e st with
    | none => none
    | some (b, st2, r) =>
      match runCalls e n st2 with
      | none => none
      | some (stf, bs, k) => some (stf, b :: bs, (if r then 1 else 0) + k)

theorem runCalls_cached (e : Env) (b : Backend) (n : Nat) :
    runCalls e n { cache := some b } =
      some ({ cache := some b }, List.replicate n b, 0) := by
  induction n with
  | zero => rfl
  | succ m ih => simp [runCalls, getOrInit, ih, List.replicate_succ]

/-- Ordered priority rules as the spec states them: Wayland (indicator set
and tool on path), then the first X11 selection tool, then the second,
then the desktop-IPC pair. -/
def priorityRules (e : Env) : List (Bool × Backend) :=
  [(e.waylandDisplay && hasExe e "wl-copy", .wayland),
   (hasExe e "xsel", .xsel),
   (hasExe e "xclip", .xclip),
   (hasExe e "klipper" && hasExe e "qdbus", .klipper)]

/-- First rule whose guard holds wins; `none` when no rule matches. -/
def firstMatch : List (Bool × Backend) → Option Backend
  | [] => none
  | (c, b) :: r => if c then some b else firstMatch r

/-- Spec-side resolver for the non-WSL POSIX branch after the display check. -/
def resolverSpec (e : Env) : Option Backend := firstMatch (priorityRules e)

def envAll : Env :=
  { display := true, waylandDisplay := true,
    path := ["wl-copy", "xsel", "xclip", "klipper", "qdbus"], procVersion := none }

def envWayOnly : Env :=
  { display := false, waylandDisplay := true, path := ["wl-copy"], procVersion := none }

def envBare : Env :=
  { display := false, waylandDisplay := false, path := [], procVersion := none }

def envXsel : Env :=
  { display := true, waylandDisplay := false, path := ["xsel"], procVersion := none }

/-- Claim C1: on a POSIX, non-WSL environment that passes the display check,
`provide` selects the first matching backend of the fixed priority list
(Wayland if its indicator is set and wl-copy is on the path, else xsel,
else xclip, else klipper together with qdbus), and aborts with "no
clipboard available" when none matches; the earliest matching rule wins. -/
theorem C1_resolver_priority (e : Env) (hw : wslDetected e = false)
    (hd : e.display = true) : provide e = resolverSpec e := by
  simp [provide, hw, hd, resolverSpec, priorityRules, firstMatch, provideAfterDisplay]

theorem C1_resolver_priority_witness :
    provide envAll = resolverSpec envAll ∧ provide envAll = some Backend.wayland :=
  ⟨C1_resolver_priority envAll rfl rfl, by decide⟩

/-- Claim C2 counterexample: with WAYLAND_DISPLAY set, wl-copy on the path,
DISPLAY unset and not WSL, resolution nevertheless aborts: the display
check consults only DISPLAY, contradicting the claimed "neither indicator
set" condition. -/
theorem C2_counterexample :
    wslDetected envWayOnly = false ∧ envWayOnly.waylandDisplay = true ∧
      provide envWayOnly = none := by
  exact ⟨rfl, rfl, by decide⟩

/-- Claim C2 (amended): on a POSIX, non-WSL platform the resolver aborts at
the display check (returning "no clipboard available" before any probe
runs) if and only if DISPLAY is unset; WAYLAND_DISPLAY is not consulted
by the check. -/
theorem C2_display_gate (e : Env) (hw : wslDetected e = false) :
    provideTraced e = ([], none) ↔ e.display = false := by
  cases hd : e.display
  · simp [provideTraced, hw, hd]
  · constructor
    · intro h
      exact absurd (congrArg Prod.fst h) (provideTraced_log_ne e hw hd)
    · intro h
      exact Bool.noConfusion h

theorem C2_display_gate_witness : provideTraced envWayOnly = ([], none) :=
  (C2_display_gate envWayOnly rfl).mpr rfl

/-- Claim C3 (code-bug exhibit): with the Klipper variant bound and prior
clipboard contents "old", `copy("text")` leaves the clipboard untouched
(the qdbus command is built but never spawned), so the following
`paste()` returns "old", not "text": the round-trip property the claim
(and the crate's own test) states fails for this variant. -/
theorem C3_klipper_roundtrip_fails :
    Klipper.copyClip [116, 101, 120, 116] [111, 108, 100] = some [111, 108, 100] ∧
    Klipper.pasteClip [111, 108, 100] = some [111, 108, 100] ∧
    ([111, 108, 100] : Txt) ≠ [116, 101, 120, 116] := by
  exact ⟨rfl, by decide, by decide⟩

/-- Claim C4 (code-bug exhibit): `Klipper::copy "text"` builds a qdbus
setClipboardContents command carrying the text as an argument but spawns
no process at all, so no notification call happens and the clipboard is
not replaced. -/
theorem C4_klipper_copy_never_spawns :
    Klipper.copyEffects [116, 101, 120, 116] = [] ∧
    Klipper.copyBuilt [116, 101, 120, 116] =
      ("qdbus", ["org.kde.klipper", "/klipper", "setClipboardContents"],
        [116, 101, 120, 116]) :=
  ⟨rfl, rfl⟩

/-- Claim C5: the Klipper paste post-processing maps any raw output ending
in a newline byte to that output with the single trailing newline removed
and nothing else changed, and aborts on any raw output not ending in a
newline. -/
theorem C5_klipper_paste_strip (t s : Txt) (hs : endsWithByte s 10 = false) :
    Klipper.pasteRaw (t ++ [10]) = some t ∧ Klipper.pasteRaw s = none := by
  constructor
  · have h1 : (t ++ [10]).getLast? = some 10 := by simp
    have h2 : (t ++ [10]).length - 1 = t.length := by simp
    have h3 : (t ++ [10]).drop t.length = [10] := List.drop_left t [10]
    have h4 : (t ++ [10]).take t.length = t := List.take_left t [10]
    simp [Klipper.pasteRaw, endsWithByte, h1, h2, truncAt, charBoundary, h3, h4, contByte]
  · simp [Klipper.pasteRaw, hs]

theorem C5_klipper_paste_strip_witness :
    Klipper.pasteRaw ([97] ++ [10]) = some [97] ∧ Klipper.pasteRaw [97] = none :=
  C5_klipper_paste_strip [97] [97] (by decide)

/-- Claim C6 counterexample: the raw output "abc" does not end in a
carriage-return line-feed pair, yet `Wsl::paste` does not abort: it
silently removes the two bytes "bc" and returns "a". -/
theorem C6_counterexample :
    ([97, 98, 99] : Txt).drop 1 ≠ [13, 10] ∧ Wsl.pasteRaw [97, 98, 99] = some [97] := by
  decide

/-- Claim C6 (amended): `Wsl::paste` removes the last two bytes of the raw
output unconditionally, whatever they are (so a trailing CR LF pair is
stripped, but its absence is not detected and two other trailing bytes
are silently removed instead); it aborts only when the output is shorter
than two bytes or the cut splits a multi-byte character. -/
theorem C6_wsl_paste_strips_two (s : Txt) (h2 : 2 ≤ s.length)
    (hb : charBoundary s (s.length - 2) = true) :
    Wsl.pasteRaw s = some (s.take (s.length - 2)) := by
  have h : ¬s.length < 2 := Nat.not_lt.mpr h2
  simp [Wsl.pasteRaw, h, truncAt, hb]

theorem C6_wsl_paste_strips_two_witness : Wsl.pasteRaw [97, 13, 10] = some [97] :=
  C6_wsl_paste_strips_two [97, 13, 10] (by decide) (by decide)

/-- Claim C7: `Wayland::copy` on the empty string performs the explicit
clear invocation and aborts exactly when that invocation reports
non-success; on any nonempty text it pipes the bytes to the tool. -/
theorem C7_wayland_copy (t : Txt) (ok : Bool) :
    (t = [] → Wayland.copyAct t ok = if ok then some WaylandAct.cleared else none) ∧
    (t ≠ [] → Wayland.copyAct t ok = some (WaylandAct.piped t)) := by
  constructor
  · intro h
    subst h
    rfl
  · intro h
    cases t with
    | nil => exact absurd rfl h
    | cons a as => rfl

theorem C7_wayland_copy_witness :
    Wayland.copyAct [] false = none ∧
    Wayland.copyAct [65] true = some (WaylandAct.piped [65]) :=
  ⟨(C7_wayland_copy [] false).1 rfl, (C7_wayland_copy [65] true).2 (by decide)⟩

/-- Claim C8: when the WSL probe reports false and DISPLAY is unset,
resolution aborts having spawned no child process, so the first
`copy`/`paste` call fails fast through the cache; and the WSL probe
treats a read failure of /proc/version as false, never as an error. -/
theorem C8_fail_fast (e : Env) :
    (wslDetected e = false → e.display = false →
      provideTraced e = ([], none) ∧ getOrInit e { cache := none } = none) ∧
    (e.procVersion = none → wslDetected e = false) := by
  constructor
  · intro hw hd
    refine ⟨by simp [provideTraced, hw, hd], ?_⟩
    simp [getOrInit, provide, hw, hd]
  · intro h
    simp [wslDetected, h]

theorem C8_fail_fast_witness :
    provideTraced envBare = ([], none) ∧
    getOrInit envBare { cache := none } = none ∧
    wslDetected envBare = false :=
  ⟨((C8_fail_fast envBare).1 rfl rfl).1, ((C8_fail_fast envBare).1 rfl rfl).2,
    (C8_fail_fast envBare).2 rfl⟩

theorem eq_of_mem_cons_replicate {b x : Backend} {m : Nat}
    (hx : x ∈ b :: List.replicate m b) : x = b := by
  rcases List.mem_cons.mp hx with h | h
  · exact h
  · exact List.eq_of_mem_replicate h

/-- Claim C9: starting from an unset cache, any sequence of `copy`/`paste`
dispatches performs at most one resolution, every call uses one and the
same backend, the final cache holds exactly that backend, and once the
cache is set any further call returns the cached backend unchanged
without resolving again. -/
theorem C9_write_once (e : Env) (n : Nat) (stf : ProcState) (bs : List Backend)
    (k : Nat) (h : runCalls e n { cache := none } = some (stf, bs, k)) :
    k ≤ 1 ∧ (∀ b1 b2, b1 ∈ bs → b2 ∈ bs → b1 = b2) ∧
    (∀ b, b ∈ bs → stf.cache = some b) ∧
    (∀ st b, st.cache = some b → getOrInit e st = some (b, st, false)) := by
  have hset : ∀ st b, st.cache = some b → getOrInit e st = some (b, st, false) := by
    intro st b hb
    simp [getOrInit, hb]
  cases n with
  | zero =>
    simp only [runCalls, Option.some.injEq, Prod.mk.injEq] at h
    obtain ⟨h1, h2, h3⟩ := h
    subst h1
    subst h2
    subst h3
    exact ⟨by omega, by simp, by simp, hset⟩
  | succ m =>
    cases hp : provide e with
    | none => simp [runCalls, getOrInit, hp] at h
    | some b =>
      simp only [runCalls, getOrInit, hp, runCalls_cached, Option.some.injEq,
        Prod.mk.injEq, if_true] at h
      obtain ⟨h1, h2, h3⟩ := h
      subst h1
      subst h2
      subst h3
      refine ⟨by omega, ?_, ?_, hset⟩
      · intro b1 b2 hb1 hb2
        rw [eq_of_mem_cons_replicate hb1, eq_of_mem_cons_replicate hb2]
      · intro x hx
        rw [eq_of_mem_cons_replicate hx]

theorem C9_write_once_witness :
    runCalls envXsel 3 { cache := none } =
      some ({ cache := some Backend.xsel },
        [Backend.xsel, Backend.xsel, Backend.xsel], 1) ∧ (1 : Nat) ≤ 1 :=
  ⟨by decide, (C9_write_once envXsel 3 { cache := some Backend.xsel }
    [Backend.xsel, Backend.xsel, Backend.xsel] 1 (by decide)).1⟩

/-- Claim C10: any raw powershell output shorter than two bytes makes
`Wsl::paste` abort (the `s.len() - 2` truncation length underflows under
checked arithmetic) instead of returning the output text. -/
theorem C10_wsl_paste_short_aborts (s : Txt) (h : s.length < 2) :
    Wsl.pasteRaw s = none := by
  simp [Wsl.pasteRaw, h]

theorem C10_wsl_paste_short_aborts_witness : Wsl.pasteRaw [] = none :=
  C10_wsl_paste_short_aborts [] (by decide)
